import Mathlib

/-!
Verification of the conversational tour-guide core: wake-phrase matching,
session store, knowledge scorer, and agent-orchestration policy, shallowly
embedded from the TypeScript sources.
-/

namespace TourGuide

/-! JavaScript-style string primitives over explicit character lists. -/

/-- Whitespace characters as matched by the JavaScript regex class backslash-s
(restricted to the ASCII range that occurs in this code base). -/
def wsB (c : Char) : Bool :=
  c == ' ' || c == '\t' || c == '\n' || c == '\r' || c == '\x0b' || c == '\x0c'

/-- Remove trailing whitespace characters from a character list. -/
def rtrimAux : List Char → List Char
  | [] => []
  | c :: t => if (rtrimAux t).isEmpty && wsB c then [] else c :: rtrimAux t

/-- Remove leading and trailing whitespace, modelling String.prototype.trim. -/
def trimChars (l : List Char) : List Char :=
  rtrimAux (l.dropWhile wsB)

/-- JavaScript trim on strings. -/
def jsTrim (s : String) : String :=
  ⟨trimChars s.data⟩

/-- Lower-case every character, modelling String.prototype.toLowerCase on the
ASCII strings in this code base. -/
def toLowerStr (s : String) : String :=
  ⟨s.data.map Char.toLower⟩

/-- Does the first list occur as a contiguous block at the start of second? -/
def listStartsWith : List Char → List Char → Bool
  | [], _ => true
  | _ :: _, [] => false
  | a :: as, b :: bs => a == b && listStartsWith as bs

/-- Does the needle occur contiguously anywhere inside the haystack? Models
String.prototype.includes. -/
def listHasSub (needle : List Char) : List Char → Bool
  | [] => needle.isEmpty
  | b :: bs => listStartsWith needle (b :: bs) || listHasSub needle bs

/-- hay.toLowerCase().includes(tok), as used by the knowledge scorer. -/
def containsLower (hay tok : String) : Bool :=
  listHasSub tok.data (toLowerStr hay).data

/-- JavaScript falsy-string choice a || b. -/
def jsOr (a b : String) : String :=
  if a.data.isEmpty then b else a

/-! Wake-word matcher, from src/ai-tourguide/src/lib/wake-word.ts. -/

def DEFAULT_WAKE_WORD : String := "hey wei jie"

structure WakeWordDetectionResult where
  matched : Bool
  stripped : String
  wakeWord : String
deriving DecidableEq

/-- Maximal non-whitespace runs of a character list. -/
def splitRunsAux : List Char → List Char → List (List Char)
  | [], acc => if acc.isEmpty then [] else [acc.reverse]
  | c :: cs, acc =>
    if wsB c then
      if acc.isEmpty then splitRunsAux cs [] else acc.reverse :: splitRunsAux cs []
    else splitRunsAux cs (c :: acc)

def splitRuns (l : List Char) : List (List Char) :=
  splitRunsAux l []

/-- wakeWord.trim().split(regex of whitespace runs): JavaScript split on the
empty string yields a singleton list holding the empty string, which is what
makes the degenerate empty-phrase pattern match everything. -/
def buildWakeWordPattern (wakeWord : String) : List String :=
  if (jsTrim wakeWord).data.isEmpty then [""]
  else (splitRuns (jsTrim wakeWord).data).map (⟨·⟩)

/-- Case-insensitive literal match of one pattern word at the head of the
input; returns the remaining input on success. -/
def matchLiteral : List Char → List Char → Option (List Char)
  | [], cs => some cs
  | _ :: _, [] => none
  | a :: as, c :: cs =>
    if Char.toLower c == Char.toLower a then matchLiteral as cs else none

/-- Match the joined pattern words separated by optional whitespace, as the
regex built from joining the words with an optional-whitespace separator. -/
def matchWords : List String → List Char → Option (List Char)
  | [], cs => some cs
  | [w], cs => matchLiteral w.data cs
  | w :: rest, cs =>
    match matchLiteral w.data cs with
    | none => none
    | some cs1 => matchWords rest (cs1.dropWhile wsB)

/-- Trailing separator class of the wake-word pattern: whitespace plus light
punctuation. -/
def isTrailPunct (c : Char) : Bool :=
  wsB c || c == ',' || c == '.' || c == ':' || c == ';' || c == '-'

/-- detectAndStripWakeWord from wake-word.ts: anchored, case-insensitive
match of the wake phrase at the start of the trimmed transcript, stripping
it plus trailing whitespace and punctuation when present. -/
def detectAndStripWakeWord (text : String) (wakeWord : String := DEFAULT_WAKE_WORD) :
    WakeWordDetectionResult :=
  match matchWords (buildWakeWordPattern wakeWord) ((jsTrim text).data.dropWhile wsB) with
  | some rest =>
    { matched := true, stripped := jsTrim ⟨rest.dropWhile isTrailPunct⟩, wakeWord := wakeWord }
  | none => { matched := false, stripped := jsTrim text, wakeWord := wakeWord }

/-! Knowledge scorer, from the knowledge tool module (tokenize / scoreEntry). -/

/-- Is the (already lowered) character a token character, i.e. a-z or 0-9? -/
def isTokenChar (c : Char) : Bool :=
  ('a' ≤ c && c ≤ 'z') || ('0' ≤ c && c ≤ '9')

/-- One step of the tokenizer replace pass: lower-case, keep token characters
and whitespace, and turn everything else into a space. -/
def cleanChar (c : Char) : Char :=
  let lc := Char.toLower c
  if isTokenChar lc || wsB lc then lc else ' '

/-- tokenize: lower-case, strip punctuation to spaces, split on whitespace.
Duplicate words in the input are kept as duplicate tokens. -/
def tokenize (s : String) : List String :=
  (splitRuns (s.data.map cleanChar)).map (⟨·⟩)

structure KnowledgeEntry where
  id : String
  name : String
  summary : String
  details : String
  tags : List String := []
deriving DecidableEq

structure KnowledgeMatch where
  entry : KnowledgeEntry
  score : ℚ
  highlights : List String
deriving DecidableEq

/-- The per-token accumulator of scoreEntry: points so far and the count of
tokens that hit the name field. -/
def scoreStep (entry : KnowledgeEntry) (acc : ℚ × Nat) (tok : String) : ℚ × Nat :=
  if containsLower entry.name tok then (acc.1 + 3, acc.2 + 1)
  else if containsLower entry.summary tok then (acc.1 + 2, acc.2)
  else if containsLower entry.details tok then (acc.1 + 1, acc.2)
  else if entry.tags.any (fun tag => containsLower tag tok) then (acc.1 + 2, acc.2)
  else acc

/-- scoreEntry: for each query token, award 3 points for a name hit, else 2
for a summary hit, else 1 for a details hit, else 2 for a tag hit; then add
half a point per token occurrence that hit the name. Entries scoring zero
before the bonus are dropped. -/
def scoreEntry (entry : KnowledgeEntry) (queryTokens : List String) :
    Option KnowledgeMatch :=
  let res := queryTokens.foldl (scoreStep entry) (0, 0)
  if res.1 = 0 then none
  else
    some
      { entry := entry
        score := res.1 + (res.2 : ℚ) * (1 / 2)
        highlights :=
          (if entry.summary.data.isEmpty then [] else [entry.summary]) ++
          (if entry.details.data.isEmpty then [] else [entry.details]) }

/-! Agent orchestration data model, from src/ai-tourguide/src/lib/tour-agent.ts. -/

structure KnowledgeLookupTrace where
  query : String
  limit : Nat
  minimumScore : ℚ
  hits : List KnowledgeMatch
deriving DecidableEq

structure AgentRunTrace where
  knowledgeLookups : List KnowledgeLookupTrace
deriving DecidableEq

structure AgentResponse where
  answer : String
  knowledgeReferences : List String
  usedWebSearch : Bool
  webSearchNote : Option String := none
deriving DecidableEq

structure UsageStats where
  totalTokens : Nat
  inputTokens : Nat
  outputTokens : Nat
  requests : Nat
deriving DecidableEq

structure AgentRunSummary where
  response : AgentResponse
  usage : UsageStats
deriving DecidableEq

def MAX_AGENT_TURNS : Nat := 15
def MAX_TOKEN_BUDGET : Nat := 4000
def MAX_REQUEST_COUNT : Nat := 4
def MIN_KNOWLEDGE_CONFIDENCE : ℚ := 3

/-- One hosted web-search tool call observed in the item list of a run; the query
field holds the parsed query argument when the arguments were a JSON string
with a string query. -/
structure WebSearchCall where
  argQuery : Option String := none
deriving DecidableEq

/-- The data a completed agent run exposes to buildAgentResponse: its
finalOutput (none when missing or not a string), the usage aggregated in the
run context, the hosted web-search calls among the run items, and the
knowledge-lookup trace collected by the knowledge tool. -/
structure AgentRunData where
  finalOutput : Option String := none
  usage : UsageStats
  webSearchCalls : List WebSearchCall := []
  trace : AgentRunTrace
deriving DecidableEq

def PLACEHOLDER_ANSWER : String := "Sorry, I couldn\u0027t craft a response just now."

def BUDGET_ANSWER : String :=
  "Sorry, I hit my processing budget for that request. Could you rephrase it more concisely?"

/-- Answer selection inside buildAgentResponse: the trimmed finalOutput when
it is a non-blank string, the fixed placeholder otherwise. -/
def buildAnswer (finalOutput : Option String) : String :=
  match finalOutput with
  | some s => if (jsTrim s).data.isEmpty then PLACEHOLDER_ANSWER else jsTrim s
  | none => PLACEHOLDER_ANSWER

/-- First-occurrence deduplication, modelling insertion into a JavaScript Set. -/
def dedupFirst (l : List String) : List String :=
  l.foldl (fun acc x => if acc.contains x then acc else acc ++ [x]) []

/-- All matches recorded across every knowledge lookup of a run trace. -/
def traceMatches (t : AgentRunTrace) : List KnowledgeMatch :=
  (t.knowledgeLookups.map (fun l => l.hits)).flatten

/-- The human-readable web-search note derived from the last web-search call. -/
def webNoteOf (calls : List WebSearchCall) : String :=
  match calls.getLast? with
  | some c =>
    match c.argQuery with
    | some q =>
      if (jsTrim q).data.isEmpty then "OpenAI web search tool used."
      else "OpenAI web search query: " ++ jsTrim q
    | none => "OpenAI web search tool used."
  | none => "OpenAI web search tool used."

/-- buildAgentResponse: assemble the user-facing summary of one agent run. -/
def buildAgentResponse (rund : AgentRunData) : AgentRunSummary :=
  let answer := buildAnswer rund.finalOutput
  let knowledgeReferences :=
    dedupFirst ((rund.trace.knowledgeLookups.map (fun l => l.hits.map (fun m => m.entry.id))).flatten)
  let usedWebSearch := !rund.webSearchCalls.isEmpty
  let webSearchNote :=
    if rund.webSearchCalls.isEmpty then none else some (webNoteOf rund.webSearchCalls)
  { response :=
      { answer := answer
        knowledgeReferences := knowledgeReferences
        usedWebSearch := usedWebSearch
        webSearchNote := webSearchNote }
    usage := rund.usage }

/-- shouldFallbackToWebSearch: escalate on a blank answer; never escalate a
run that already used web search; otherwise escalate when no knowledge lookup
was recorded, when every lookup returned zero matches, or when the best match
score stays below the confidence threshold. -/
def shouldFallbackToWebSearch (query : String) (response : AgentResponse)
    (runTrace : AgentRunTrace) : Bool :=
  if (jsTrim response.answer).data.isEmpty then true
  else if response.usedWebSearch then false
  else if runTrace.knowledgeLookups.isEmpty then true
  else
    let allMatches := traceMatches runTrace
    if allMatches.isEmpty then true
    else
      let topScore :=
        allMatches.foldl (fun best m => if m.score > best then m.score else best) (0 : ℚ)
      decide (topScore < MIN_KNOWLEDGE_CONFIDENCE)

/-- Failure taxonomy recognised by handleAgentError. -/
inductive AgentError where
  | inputGuardrailTripwire
  | outputGuardrailTripwire
  | maxTurnsExceeded
  | unexpected
deriving DecidableEq

/-- handleAgentError: map each failure class to its fixed safe reply. -/
def handleAgentError (error : AgentError) : AgentResponse :=
  match error with
  | .inputGuardrailTripwire =>
    { answer := "Your request is a little too long for me to safely handle. Could you shorten it and try again?"
      knowledgeReferences := []
      usedWebSearch := false
      webSearchNote := none }
  | .outputGuardrailTripwire =>
    { answer := "I had trouble formulating a safe answer just now. Let\u0027s try a simpler version of that question."
      knowledgeReferences := []
      usedWebSearch := false
      webSearchNote := some "Output guardrail triggered" }
  | .maxTurnsExceeded =>
    { answer := "I couldn\u0027t finish gathering information within my turn limit. Please narrow the question and I\u0027ll give it another shot."
      knowledgeReferences := []
      usedWebSearch := false
      webSearchNote := some "Turn limit reached before completion" }
  | .unexpected =>
    { answer := "Something went wrong while I was looking that up. Could you please try again in a moment?"
      knowledgeReferences := []
      usedWebSearch := false
      webSearchNote := none }

/-- Budget enforcement and fallback-note annotation at the tail of respond. -/
def finishRespond (fallbackAttempted : Bool) (summary : AgentRunSummary) : AgentResponse :=
  if summary.usage.totalTokens > MAX_TOKEN_BUDGET ∨ summary.usage.requests > MAX_REQUEST_COUNT then
    { answer := BUDGET_ANSWER
      knowledgeReferences := []
      usedWebSearch := summary.response.usedWebSearch
      webSearchNote := summary.response.webSearchNote }
  else if fallbackAttempted && !summary.response.usedWebSearch then
    { summary.response with
        webSearchNote := some (summary.response.webSearchNote.getD
          "Web search fallback attempted but no search call was completed.") }
  else summary.response

/-- the respond control flow over the outcome of the primary run and, when the
escalation check fires, the outcome of the web-search-preferring fallback run:
errors are converted by handleAgentError, completed runs are summarised and
pass through budget enforcement. -/
def respondFromOutcomes (query : String)
    (primary fallback : Except AgentError AgentRunData) : AgentResponse :=
  match primary with
  | .error e => handleAgentError e
  | .ok p =>
    let s1 := buildAgentResponse p
    if shouldFallbackToWebSearch query s1.response p.trace then
      match fallback with
      | .error e => handleAgentError e
      | .ok f => finishRespond true (buildAgentResponse f)
    else finishRespond false s1

/-- The run summary respond finally applies budget enforcement to, when both
needed runs complete; none when the deciding run threw. -/
def finalRunSummary (query : String)
    (primary fallback : Except AgentError AgentRunData) : Option AgentRunSummary :=
  match primary with
  | .error _ => none
  | .ok p =>
    let s1 := buildAgentResponse p
    if shouldFallbackToWebSearch query s1.response p.trace then
      match fallback with
      | .error _ => none
      | .ok f => some (buildAgentResponse f)
    else some s1

/-- the leading validation in respond: a blank query is rejected with a thrown
error before any run starts. -/
def tourAgentRespond (query : String)
    (primary fallback : Except AgentError AgentRunData) : Except String AgentResponse :=
  if (jsTrim query).data.isEmpty then .error "Query text must be provided."
  else .ok (respondFromOutcomes query primary fallback)

/-! Session store, from src/ai-tourguide/src/lib/conversation.ts. -/

def IDLE_MS : Nat := 30000
def MAX_TURNS : Nat := 8

structure Msg where
  role : String
  content : String
deriving DecidableEq

structure Session where
  id : String
  messages : List Msg
  lastSeenAt : Nat
  turns : Nat
  lang : Option String := none
deriving DecidableEq

/-- The process-wide SESSIONS map, modelled as an insertion-ordered
association list from session id to session. -/
abbrev Store : Type := List (String × Session)

def storeGet (st : Store) (id : String) : Option Session :=
  (st.find? (fun p => p.1 == id)).map (fun p => p.2)

def storeSet (st : Store) (id : String) (s : Session) : Store :=
  if st.any (fun p => p.1 == id) then
    st.map (fun p => if p.1 == id then (id, s) else p)
  else st ++ [(id, s)]

def storeDelete (st : Store) (id : String) : Store :=
  st.filter (fun p => !(p.1 == id))

def newSession (id : String) (t : Nat) : Session :=
  { id := id, messages := [], lastSeenAt := t, turns := 0, lang := none }

/-- getSession: return the stored session when the caller supplied a known
id, otherwise create a fresh session (with the generated id) and store it. -/
def getSession (sessionId : Option String) (st : Store) (freshId : String)
    (t : Nat) : Session × Store :=
  match sessionId with
  | some id =>
    match storeGet st id with
    | some s => (s, st)
    | none => (newSession freshId t, storeSet st freshId (newSession freshId t))
  | none => (newSession freshId t, storeSet st freshId (newSession freshId t))

/-- isExpired: more than the idle window has passed since last contact. -/
def isExpired (t : Nat) (session : Session) : Bool :=
  decide (t - session.lastSeenAt > IDLE_MS)

def expiresAt (session : Session) : Nat :=
  session.lastSeenAt + IDLE_MS

/-! Conversation route, from src/ai-tourguide/src/app/api/conversation/route.ts. -/

/-- The parsed JSON request body; none marks an absent (or non-conforming)
field, mirroring the defensive typeof checks of the route. -/
structure RequestBody where
  text : Option String := none
  strippedText : Option String := none
  wakeWordDetected : Option Bool := none
  wakeWord : Option String := none
  lang : Option String := none
  sessionId : Option String := none
deriving DecidableEq

/-- The JSON payload of a non-error conversation response. Fields absent on
the idle-timeout payload are optional here. -/
structure ConversationPayload where
  sessionId : String
  reply : String
  ended : Bool
  endReason : Option String
  turn : Nat
  lastSeenAtMeta : Nat
  expiresAtMeta : Nat
  detectedWakeWord : Bool
  knowledgeReferences : Option (List String) := none
  usedWebSearch : Option Bool := none
  webSearchNote : Option String := none
deriving DecidableEq

/-- The three response shapes of the route: the 400 on missing text, the 500 from
the outer catch, and a JSON payload. -/
inductive RouteResult where
  | missingText
  | unexpectedError (msg : String)
  | ok (payload : ConversationPayload)
deriving DecidableEq

def IDLE_REPLY : String := "I\u0027ll pause here. Use the wake word to pick up again."

/-- First-turn wake-word handling of the route: a client-supplied detection
flag is trusted (re-detecting only when no client-stripped text came along),
otherwise the server detects and strips the phrase itself; on later turns the
wake word is ignored. Returns the detection flag and the user text. -/
def wakeStep (turnsIsZero : Bool) (wakeWordDetected : Option Bool)
    (trimmedText strippedFromClient : String) (wakeWordOverride : Option String) :
    Bool × String :=
  let initUserText := jsOr strippedFromClient trimmedText
  if turnsIsZero then
    match wakeWordDetected with
    | some flag =>
      if flag then
        if strippedFromClient.data.isEmpty then
          let res := detectAndStripWakeWord trimmedText (wakeWordOverride.getD DEFAULT_WAKE_WORD)
          (res.matched, jsOr res.stripped trimmedText)
        else (true, initUserText)
      else (false, initUserText)
    | none =>
      let res := detectAndStripWakeWord trimmedText (wakeWordOverride.getD DEFAULT_WAKE_WORD)
      (res.matched, jsOr res.stripped trimmedText)
  else (false, initUserText)

/-- Session mutation performed after a successful agent reply: cap the
retained history, append the user and assistant messages, bump the turn
counter, record the language, and refresh the activity stamp. -/
def applyTurn (s : Session) (userText reply lang : String) (t : Nat) : Session :=
  { s with
      messages :=
        (s.messages.drop (s.messages.length - MAX_TURNS * 2)) ++
          [{ role := "user", content := userText }, { role := "assistant", content := reply }]
      turns := s.turns + 1
      lang := some lang
      lastSeenAt := t }

/-- POST /api/conversation: validate the text, resolve the session, end
idle-expired sessions, refresh activity, run first-turn wake handling, invoke
the agent, and on success record the exchange into the session. The agent
call is abstracted as a function from the computed user text to either a
thrown error message or an AgentResponse. -/
def handlePost (body : RequestBody) (st : Store) (freshId : String) (t : Nat)
    (agentCall : String → Except String AgentResponse) : RouteResult × Store :=
  let text := body.text.getD ""
  let trimmedText := jsTrim text
  let strippedFromClient := (body.strippedText.map jsTrim).getD ""
  let wakeWordOverride :=
    body.wakeWord.bind (fun w => if (jsTrim w).data.isEmpty then none else some (jsTrim w))
  let providedSessionId :=
    body.sessionId.bind (fun s => if s.data.isEmpty then none else some s)
  if trimmedText.data.isEmpty && strippedFromClient.data.isEmpty then
    (.missingText, st)
  else
    let gs := getSession providedSessionId st freshId t
    let session := gs.1
    let st1 := gs.2
    if isExpired t session then
      (.ok
        { sessionId := session.id
          reply := IDLE_REPLY
          ended := true
          endReason := some "idle_timeout"
          turn := session.turns
          lastSeenAtMeta := session.lastSeenAt
          expiresAtMeta := expiresAt session
          detectedWakeWord := false },
       storeDelete st1 session.id)
    else
      let session1 := { session with lastSeenAt := t }
      let st2 := storeSet st1 session1.id session1
      let ws := wakeStep (session1.turns == 0) body.wakeWordDetected trimmedText
        strippedFromClient wakeWordOverride
      let detectedWakeWord := ws.1
      let userText := ws.2
      let lang := (body.lang.getD (session1.lang.getD "en-SG"))
      match agentCall userText with
      | .error msg => (.unexpectedError msg, st2)
      | .ok agentResult =>
        let session2 := applyTurn session1 userText agentResult.answer lang t
        let st3 := storeSet st2 session2.id session2
        (.ok
          { sessionId := session2.id
            reply := agentResult.answer
            ended := false
            endReason := none
            turn := session2.turns
            lastSeenAtMeta := session2.lastSeenAt
            expiresAtMeta := expiresAt session2
            detectedWakeWord := detectedWakeWord
            knowledgeReferences := some agentResult.knowledgeReferences
            usedWebSearch := some agentResult.usedWebSearch
            webSearchNote := agentResult.webSearchNote },
         st3)

/-- One successful conversation turn as seen from the session store. -/
structure TurnInput where
  user : String
  reply : String
  lang : String
  time : Nat
deriving DecidableEq

/-- Iterate successful turns over a session. -/
def runTurns (s : Session) (l : List TurnInput) : Session :=
  l.foldl (fun s i => applyTurn s i.user i.reply i.lang i.time) s

/-! Definitions used to state the claims. -/

/-- The weight one query token earns against an entry, following the
else-if order of scoreEntry: name, then summary, then details, then tags. -/
def tokenWeight (entry : KnowledgeEntry) (tok : String) : ℚ :=
  if containsLower entry.name tok then 3
  else if containsLower entry.summary tok then 2
  else if containsLower entry.details tok then 1
  else if entry.tags.any (fun tag => containsLower tag tok) then 2
  else 0

/-- Total weighted points of a token list against an entry. -/
def sumWeights (entry : KnowledgeEntry) (toks : List String) : ℚ :=
  (toks.map (tokenWeight entry)).sum

/-- Number of token occurrences that hit the entry name. -/
def nameHitCount (entry : KnowledgeEntry) (toks : List String) : Nat :=
  (toks.filter (fun tk => containsLower entry.name tk)).length

/-- Scoring policy as the claim words it, for comparison with scoreEntry:
highest weight for a name hit, a medium weight for a summary or tag hit,
lowest weight for a details hit, plus a small bonus per distinct query token
matched in the name field. -/
def specScoreEntry (entry : KnowledgeEntry) (queryTokens : List String) : Option ℚ :=
  let w := fun (tok : String) =>
    if containsLower entry.name tok then (3 : ℚ)
    else if containsLower entry.summary tok ||
        entry.tags.any (fun tag => containsLower tag tok) then 2
    else if containsLower entry.details tok then 1
    else 0
  let base := (queryTokens.map w).sum
  if base = 0 then none
  else
    some (base +
      ((queryTokens.dedup.filter (fun tk => containsLower entry.name tk)).length : ℚ) * (1 / 2))

/-- The knowledge-gap part of the escalation check: no lookup recorded, every
lookup empty, or best score below the confidence threshold. -/
def lookupGapCheck (t : AgentRunTrace) : Bool :=
  if t.knowledgeLookups.isEmpty then true
  else if (traceMatches t).isEmpty then true
  else
    decide ((traceMatches t).foldl
      (fun best m => if m.score > best then m.score else best) (0 : ℚ) < MIN_KNOWLEDGE_CONFIDENCE)

/-! Concrete fixtures used by counterexamples and witnesses. -/

def entryTagInDetails : KnowledgeEntry :=
  { id := "canopy", name := "Canopy Park", summary := "A play area",
    details := "The skytrain passes here", tags := ["skytrain"] }

def entryRainVortex : KnowledgeEntry :=
  { id := "vortex", name := "Rain Vortex", summary := "Indoor waterfall",
    details := "Tallest indoor waterfall", tags := ["waterfall"] }

def strongMatch : KnowledgeMatch :=
  { entry := entryRainVortex, score := 4, highlights := [] }

/-- A completed run with a confident local answer whose usage blows the
token budget. -/
def budgetRun : AgentRunData :=
  { finalOutput := some "All good"
    usage := { totalTokens := 5000, inputTokens := 4000, outputTokens := 1000, requests := 2 }
    webSearchCalls := []
    trace := { knowledgeLookups := [{ query := "rain", limit := 3, minimumScore := 1, hits := [strongMatch] }] } }

/-- A completed run that already called the hosted web-search tool while
recording no knowledge lookups at all. -/
def webRun : AgentRunData :=
  { finalOutput := some "  "
    usage := { totalTokens := 10, inputTokens := 5, outputTokens := 5, requests := 1 }
    webSearchCalls := [{ argQuery := some "x" }]
    trace := { knowledgeLookups := [] } }

def tenTurnSession : Session :=
  runTurns (newSession "s" 0)
    (List.replicate 10 { user := "q", reply := "a", lang := "en-SG", time := 0 })

def c6Session : Session :=
  { id := "sid", messages := [{ role := "user", content := "hi" }, { role := "assistant", content := "yo" }],
    lastSeenAt := 100, turns := 1, lang := some "en-SG" }

/-! Supporting lemmas about the string model. -/

theorem dropWhile_head_false {p : Char → Bool} :
    ∀ {l : List Char} {c : Char} {r : List Char}, l.dropWhile p = c :: r → p c = false := by
  intro l
  induction l with
  | nil => intro c r h; simp at h
  | cons a t ih =>
    intro c r h
    rw [List.dropWhile_cons] at h
    by_cases hp : p a
    · rw [if_pos hp] at h
      exact ih h
    · rw [if_neg hp] at h
      cases h
      exact Bool.not_eq_true _ ▸ (by simpa using hp)

theorem dropWhile_dropWhile (p : Char → Bool) (l : List Char) :
    (l.dropWhile p).dropWhile p = l.dropWhile p := by
  cases h : l.dropWhile p with
  | nil => simp
  | cons c r =>
    have hc := dropWhile_head_false (p := p) h
    rw [List.dropWhile_cons, hc]
    simp

theorem length_dropWhile_le_len (p : Char → Bool) (l : List Char) :
    (l.dropWhile p).length ≤ l.length := by
  induction l with
  | nil => simp
  | cons a s ih =>
    rw [List.dropWhile_cons]
    by_cases hpa : p a
    · rw [if_pos hpa]
      exact Nat.le_trans ih (Nat.le_succ _)
    · rw [if_neg hpa]

theorem rtrimAux_idem (l : List Char) : rtrimAux (rtrimAux l) = rtrimAux l := by
  induction l with
  | nil => rfl
  | cons c t ih =>
    by_cases h : (rtrimAux t).isEmpty && wsB c
    · simp only [rtrimAux, if_pos h]
    · simp only [rtrimAux, if_neg h]
      rw [ih, if_neg h]

theorem dropWhile_rtrimAux {l : List Char} (h : l.dropWhile wsB = l) :
    (rtrimAux l).dropWhile wsB = rtrimAux l := by
  cases l with
  | nil => rfl
  | cons c t =>
    have hc : wsB c = false := by
      by_cases hw : wsB c
      · rw [List.dropWhile_cons, if_pos hw] at h
        have hlen := length_dropWhile_le_len wsB t
        rw [h] at hlen
        simp at hlen
      · simpa using hw
    rw [show rtrimAux (c :: t) =
      if (rtrimAux t).isEmpty && wsB c then [] else c :: rtrimAux t from rfl]
    rw [hc]
    simp [List.dropWhile_cons, hc]

theorem trimChars_ltrim_fix (l : List Char) :
    (trimChars l).dropWhile wsB = trimChars l :=
  dropWhile_rtrimAux (dropWhile_dropWhile wsB l)

theorem trimChars_idem (l : List Char) : trimChars (trimChars l) = trimChars l := by
  show rtrimAux ((trimChars l).dropWhile wsB) = trimChars l
  rw [trimChars_ltrim_fix]
  exact rtrimAux_idem _

theorem jsTrim_data (s : String) : (jsTrim s).data = trimChars s.data := rfl

theorem jsTrim_idem (s : String) : jsTrim (jsTrim s) = jsTrim s :=
  congrArg String.mk (trimChars_idem s.data)

/-! Supporting lemmas about the wake-word matcher. -/

theorem detect_no_match_stripped {text wakeWord : String}
    (h : (detectAndStripWakeWord text wakeWord).matched = false) :
    (detectAndStripWakeWord text wakeWord).stripped = jsTrim text := by
  unfold detectAndStripWakeWord at h ⊢
  cases hm : matchWords (buildWakeWordPattern wakeWord) ((jsTrim text).data.dropWhile wsB) with
  | none => rfl
  | some rest =>
    rw [hm] at h
    exact Bool.noConfusion h

set_option maxRecDepth 65536 in
/-- C8 counterexample: with an empty wake phrase the matcher reports a match
on an arbitrary input and strips its leading punctuation, while the claim
says an empty phrase matches nothing and never strips. -/
theorem c8_counterexample :
    (detectAndStripWakeWord ",, hi there" "").matched = true ∧
    (detectAndStripWakeWord ",, hi there" "").stripped = "hi there" ∧
    jsTrim ",, hi there" = ",, hi there" := by
  refine ⟨by decide, ?_, by decide⟩
  decide

/-- C8 (amended): with an empty or whitespace-only wake phrase the pattern
degenerates and matches every input; the result strips exactly the leading
whitespace-and-punctuation run of the trimmed input. -/
theorem c8_amended (text wakeWord : String) (hempty : (jsTrim wakeWord).data = []) :
    (detectAndStripWakeWord text wakeWord).matched = true ∧
    (detectAndStripWakeWord text wakeWord).stripped =
      jsTrim ⟨(jsTrim text).data.dropWhile isTrailPunct⟩ := by
  have hpat : buildWakeWordPattern wakeWord = [""] := by
    unfold buildWakeWordPattern
    rw [hempty]
    rfl
  have hm : matchWords (buildWakeWordPattern wakeWord) ((jsTrim text).data.dropWhile wsB) =
      some ((jsTrim text).data.dropWhile wsB) := by
    rw [hpat]
    rfl
  have hfix : (jsTrim text).data.dropWhile wsB = (jsTrim text).data := by
    rw [jsTrim_data]
    exact trimChars_ltrim_fix _
  unfold detectAndStripWakeWord
  rw [hm, hfix]
  exact ⟨rfl, rfl⟩

/-- C8 witness: the amended statement evaluated at a whitespace-only phrase. -/
theorem c8_witness :
    (detectAndStripWakeWord "  hi!  " "  ").matched = true ∧
    (detectAndStripWakeWord "  hi!  " "  ").stripped =
      jsTrim ⟨(jsTrim "  hi!  ").data.dropWhile isTrailPunct⟩ :=
  c8_amended "  hi!  " "  " (by decide)

set_option maxRecDepth 65536 in
/-- C9 counterexample: the pattern end is not word-boundary anchored, so a
prefix whose final word merely begins with the last wake word is matched and
split apart, contradicting the claim. -/
theorem c9_counterexample :
    detectAndStripWakeWord "hey guidebook" "hey guide" =
      { matched := true, stripped := "book", wakeWord := "hey guide" } := by
  decide

set_option maxRecDepth 65536 in
/-- C9 (amended): matching is case-insensitive, tolerant of any amount of
internal whitespace (including none), and start-anchored only — when nothing
matches the trimmed input is returned unchanged; the two concrete examples of
the claim hold, but the end of the phrase is not word-boundary anchored. -/
theorem c9_amended (text wakeWord : String) :
    ((detectAndStripWakeWord text wakeWord).matched = false →
      (detectAndStripWakeWord text wakeWord).stripped = jsTrim text) ∧
    detectAndStripWakeWord "hey guide, tell me about the fountain" "hey guide" =
      { matched := true, stripped := "tell me about the fountain", wakeWord := "hey guide" } ∧
    detectAndStripWakeWord "I love hey guide trivia" "hey guide" =
      { matched := false, stripped := "I love hey guide trivia", wakeWord := "hey guide" } ∧
    (detectAndStripWakeWord "HEY   GUIDE tell me" "hey guide").matched = true ∧
    (detectAndStripWakeWord "heyguide tell me" "hey guide").matched = true := by
  exact ⟨detect_no_match_stripped, by decide, by decide, by decide, by decide⟩

set_option maxRecDepth 65536 in
/-- C9 witness: the no-match clause of the amended statement at a concrete
input. -/
theorem c9_witness :
    (detectAndStripWakeWord "I love hey guide trivia" "hey guide").stripped =
      jsTrim "I love hey guide trivia" :=
  (c9_amended "I love hey guide trivia" "hey guide").1 (by decide)

/-! Supporting lemmas about the knowledge scorer. -/

theorem sumWeights_cons (e : KnowledgeEntry) (tk : String) (t : List String) :
    sumWeights e (tk :: t) = tokenWeight e tk + sumWeights e t := by
  simp [sumWeights]

theorem nameHitCount_cons (e : KnowledgeEntry) (tk : String) (t : List String) :
    nameHitCount e (tk :: t) =
      (if containsLower e.name tk then 1 else 0) + nameHitCount e t := by
  by_cases h : containsLower e.name tk
  · simp [nameHitCount, List.filter_cons, h, Nat.add_comm]
  · simp [nameHitCount, List.filter_cons, h]

theorem scoreEntry_foldl (entry : KnowledgeEntry) :
    ∀ (toks : List String) (a : ℚ) (b : Nat),
      toks.foldl (scoreStep entry) (a, b) =
        (a + sumWeights entry toks, b + nameHitCount entry toks) := by
  intro toks
  induction toks with
  | nil =>
    intro a b
    simp [sumWeights, nameHitCount]
  | cons tk t ih =>
    intro a b
    rw [List.foldl_cons, sumWeights_cons, nameHitCount_cons]
    by_cases h1 : containsLower entry.name tk
    · simp only [scoreStep, tokenWeight, h1, if_true]
      rw [ih]
      simp only [Prod.mk.injEq]
      exact ⟨by ring, by omega⟩
    · by_cases h2 : containsLower entry.summary tk
      · simp only [scoreStep, tokenWeight, h1, h2, if_true, if_false, Bool.false_eq_true]
        rw [ih]
        simp only [Prod.mk.injEq]
        exact ⟨by ring, by omega⟩
      · by_cases h3 : containsLower entry.details tk
        · simp only [scoreStep, tokenWeight, h1, h2, h3, if_true, if_false, Bool.false_eq_true]
          rw [ih]
          simp only [Prod.mk.injEq]
          exact ⟨by ring, by omega⟩
        · by_cases h4 : entry.tags.any (fun tag => containsLower tag tk)
          · simp only [scoreStep, tokenWeight, h1, h2, h3, h4, if_true, if_false,
              Bool.false_eq_true]
            rw [ih]
            simp only [Prod.mk.injEq]
            exact ⟨by ring, by omega⟩
          · simp only [scoreStep, tokenWeight, h1, h2, h3, h4, if_false, Bool.false_eq_true]
            rw [ih]
            simp only [Prod.mk.injEq]
            exact ⟨by ring, by omega⟩

/-- C7 (amended): the scorer awards per token occurrence the weight of the
first field it hits in the fixed order name (3), summary (2), details (1),
tags (2) — so a token found in both the details and a tag earns the details
weight — and the half-point bonus counts name-hit token occurrences, with
duplicated query tokens counted once per occurrence. -/
theorem c7_amended (entry : KnowledgeEntry) (queryTokens : List String) :
    scoreEntry entry queryTokens =
      (if sumWeights entry queryTokens = 0 then none
       else some
        { entry := entry
          score := sumWeights entry queryTokens +
            (nameHitCount entry queryTokens : ℚ) * (1 / 2)
          highlights :=
            (if entry.summary.data.isEmpty then [] else [entry.summary]) ++
            (if entry.details.data.isEmpty then [] else [entry.details]) }) := by
  simp only [scoreEntry]
  rw [scoreEntry_foldl]
  simp only [zero_add]

set_option maxRecDepth 65536 in
/-- C7 counterexample: a query token appearing in an entry tag and in its
details earns the low details weight, not the medium tag weight the claim
describes; and the name bonus counts duplicated token occurrences, not
distinct tokens. -/
theorem c7_counterexample :
    (scoreEntry entryTagInDetails (tokenize "skytrain")).map (fun m => m.score) = some 1 ∧
    specScoreEntry entryTagInDetails (tokenize "skytrain") = some 2 ∧
    (scoreEntry entryRainVortex (tokenize "rain rain")).map (fun m => m.score) = some 7 ∧
    specScoreEntry entryRainVortex (tokenize "rain rain") = some (13 / 2) := by
  have ht1 : tokenize "skytrain" = ["skytrain"] := by decide
  have ht2 : tokenize "rain rain" = ["rain", "rain"] := by decide
  have c1 : containsLower entryTagInDetails.name "skytrain" = false := by decide
  have c2 : containsLower entryTagInDetails.summary "skytrain" = false := by decide
  have c3 : containsLower entryTagInDetails.details "skytrain" = true := by decide
  have c4 : entryTagInDetails.tags.any (fun tag => containsLower tag "skytrain") = true := by
    decide
  have d1 : containsLower entryRainVortex.name "rain" = true := by decide
  refine ⟨?_, ?_, ?_, ?_⟩
  · rw [ht1]
    simp only [scoreEntry]
    rw [scoreEntry_foldl]
    have hw : sumWeights entryTagInDetails ["skytrain"] = 1 := by
      simp [sumWeights, tokenWeight, c1, c2, c3]
    have hn : nameHitCount entryTagInDetails ["skytrain"] = 0 := by decide
    rw [hw, hn]
    norm_num
  · rw [ht1]
    simp only [specScoreEntry]
    have hd : ((["skytrain"] : List String).dedup.filter
        (fun tk => containsLower entryTagInDetails.name tk)).length = 0 := by decide
    simp only [List.map_cons, List.map_nil, c1, c2, c4, Bool.false_or, if_true, if_false,
      Bool.false_eq_true, List.sum_cons, List.sum_nil, hd]
    norm_num
  · rw [ht2]
    simp only [scoreEntry]
    rw [scoreEntry_foldl]
    have hw : sumWeights entryRainVortex ["rain", "rain"] = 6 := by
      norm_num [sumWeights, tokenWeight, d1]
    have hn : nameHitCount entryRainVortex ["rain", "rain"] = 2 := by decide
    rw [hw, hn]
    norm_num
  · rw [ht2]
    simp only [specScoreEntry]
    have hd : ((["rain", "rain"] : List String).dedup.filter
        (fun tk => containsLower entryRainVortex.name tk)).length = 1 := by decide
    simp only [List.map_cons, List.map_nil, d1, if_true, List.sum_cons, List.sum_nil, hd]
    norm_num

/-! Supporting lemmas about the escalation policy. -/

set_option maxRecDepth 65536 in
theorem buildAnswer_nonblank (fo : Option String) :
    (jsTrim (buildAnswer fo)).data.isEmpty = false := by
  cases fo with
  | none =>
    show (jsTrim PLACEHOLDER_ANSWER).data.isEmpty = false
    decide
  | some s =>
    show (jsTrim (if (jsTrim s).data.isEmpty then PLACEHOLDER_ANSWER else jsTrim s)).data.isEmpty
      = false
    by_cases h : (jsTrim s).data.isEmpty
    · rw [if_pos h]
      decide
    · rw [if_neg h, jsTrim_idem]
      simpa using h

theorem foldl_best_lt (c : ℚ) :
    ∀ (l : List KnowledgeMatch) (b : ℚ),
      (l.foldl (fun best m => if m.score > best then m.score else best) b < c) ↔
        (b < c ∧ ∀ m ∈ l, m.score < c) := by
  intro l
  induction l with
  | nil => intro b; simp
  | cons m t ih =>
    intro b
    rw [List.foldl_cons, ih]
    by_cases h : m.score > b
    · rw [if_pos h]
      constructor
      · rintro ⟨h1, h2⟩
        refine ⟨lt_trans h h1, ?_⟩
        intro x hx
        rcases List.mem_cons.mp hx with rfl | hx2
        · exact h1
        · exact h2 x hx2
      · rintro ⟨h1, h2⟩
        exact ⟨h2 m (List.mem_cons_self m t), fun x hx => h2 x (List.mem_cons_of_mem m hx)⟩
    · rw [if_neg h]
      push_neg at h
      constructor
      · rintro ⟨h1, h2⟩
        refine ⟨h1, ?_⟩
        intro x hx
        rcases List.mem_cons.mp hx with rfl | hx2
        · exact lt_of_le_of_lt h h1
        · exact h2 x hx2
      · rintro ⟨h1, h2⟩
        exact ⟨h1, fun x hx => h2 x (List.mem_cons_of_mem m hx)⟩

/-- C2: the escalation predicate fires exactly on a blank answer, or — when
the run did not already use web search — on a missing lookup, empty matches
(subsumed by the vacuous best-score clause), or a best score below the
confidence threshold; and for every completed run summarised by
buildAgentResponse, having used web search forces no escalation. -/
theorem c2_fallback_policy :
    (∀ (q : String) (r : AgentResponse) (t : AgentRunTrace),
      shouldFallbackToWebSearch q r t = true ↔
        ((jsTrim r.answer).data = [] ∨
          (r.usedWebSearch = false ∧
            (t.knowledgeLookups = [] ∨
              ∀ m ∈ traceMatches t, m.score < MIN_KNOWLEDGE_CONFIDENCE)))) ∧
    (∀ (q : String) (rund : AgentRunData),
      (buildAgentResponse rund).response.usedWebSearch = true →
        shouldFallbackToWebSearch q (buildAgentResponse rund).response rund.trace = false) := by
  constructor
  · intro q r t
    unfold shouldFallbackToWebSearch
    by_cases h1 : (jsTrim r.answer).data.isEmpty
    · rw [if_pos h1]
      simp only [List.isEmpty_iff] at h1
      simp [h1]
    · rw [if_neg h1]
      have h1' : ¬((jsTrim r.answer).data = []) := by
        intro he
        exact h1 (by simp [he])
      by_cases h2 : r.usedWebSearch
      · rw [if_pos h2]
        simp [h1', h2]
      · rw [if_neg h2]
        have h2' : r.usedWebSearch = false := by simpa using h2
        by_cases h3 : t.knowledgeLookups.isEmpty
        · rw [if_pos h3]
          simp only [List.isEmpty_iff] at h3
          simp [h1', h2', h3]
        · rw [if_neg h3]
          have h3' : ¬(t.knowledgeLookups = []) := by
            intro he
            exact h3 (by simp [he])
          by_cases h4 : (traceMatches t).isEmpty
          · rw [if_pos h4]
            simp only [List.isEmpty_iff] at h4
            simp [h1', h2', h3', h4]
          · rw [if_neg h4]
            rw [decide_eq_true_eq, foldl_best_lt]
            have h05 : (0 : ℚ) < MIN_KNOWLEDGE_CONFIDENCE := by
              norm_num [MIN_KNOWLEDGE_CONFIDENCE]
            simp [h1', h2', h3', h05]
  · intro q rund h
    have hb : (jsTrim (buildAgentResponse rund).response.answer).data.isEmpty = false :=
      buildAnswer_nonblank rund.finalOutput
    unfold shouldFallbackToWebSearch
    rw [if_neg (by simp [hb]), if_pos h]

/-- C2 witness: a run that already used the web-search tool yields no
escalation although its trace holds no knowledge match at all. -/
theorem c2_witness :
    shouldFallbackToWebSearch "q" (buildAgentResponse webRun).response webRun.trace = false :=
  c2_fallback_policy.2 "q" webRun (by decide)

/-- C10: every response built by buildAgentResponse carries an answer that is
non-blank after trimming (the placeholder substitutes for a missing or blank
finalOutput), so on such responses the empty-answer branch of
shouldFallbackToWebSearch is unreachable: the predicate reduces to the
web-search veto followed by the knowledge-gap checks. -/
theorem c10_nonempty_answer (rund : AgentRunData) (q : String) :
    (jsTrim (buildAgentResponse rund).response.answer).data.isEmpty = false ∧
    shouldFallbackToWebSearch q (buildAgentResponse rund).response rund.trace =
      (!(buildAgentResponse rund).response.usedWebSearch && lookupGapCheck rund.trace) := by
  have hb : (jsTrim (buildAgentResponse rund).response.answer).data.isEmpty = false :=
    buildAnswer_nonblank rund.finalOutput
  refine ⟨hb, ?_⟩
  unfold shouldFallbackToWebSearch lookupGapCheck
  rw [if_neg (by simp [hb])]
  by_cases h2 : (buildAgentResponse rund).response.usedWebSearch
  · rw [if_pos h2, h2]
    rfl
  · have h2' : (buildAgentResponse rund).response.usedWebSearch = false := by simpa using h2
    rw [if_neg h2, h2']
    simp only [Bool.not_false, Bool.true_and]

/-- C4: whenever the run pipeline completes and the summary finally reaching
budget enforcement reports usage over the token ceiling or over the request
ceiling, respond discards the computed answer and returns the fixed
processing-budget message with an empty knowledge-reference list. -/
theorem c4_budget_short_circuit (q : String)
    (primary fallback : Except AgentError AgentRunData) (s : AgentRunSummary)
    (hfin : finalRunSummary q primary fallback = some s)
    (hex : s.usage.totalTokens > MAX_TOKEN_BUDGET ∨ s.usage.requests > MAX_REQUEST_COUNT) :
    respondFromOutcomes q primary fallback =
      { answer := BUDGET_ANSWER
        knowledgeReferences := []
        usedWebSearch := s.response.usedWebSearch
        webSearchNote := s.response.webSearchNote } := by
  cases primary with
  | error e => exact Option.noConfusion hfin
  | ok p =>
    simp only [finalRunSummary] at hfin
    simp only [respondFromOutcomes]
    by_cases hfb : shouldFallbackToWebSearch q (buildAgentResponse p).response p.trace = true
    · rw [if_pos hfb] at hfin ⊢
      cases fallback with
      | error e => exact Option.noConfusion hfin
      | ok f =>
        obtain rfl := Option.some.inj hfin
        show finishRespond true (buildAgentResponse f) = _
        unfold finishRespond
        rw [if_pos hex]
    · rw [if_neg hfb] at hfin ⊢
      obtain rfl := Option.some.inj hfin
      show finishRespond false (buildAgentResponse p) = _
      unfold finishRespond
      rw [if_pos hex]

set_option maxRecDepth 65536 in
/-- C4 witness: a confident single run whose token usage exceeds the budget
is replaced by the fixed budget message. -/
theorem c4_witness :
    respondFromOutcomes "rain" (.ok budgetRun) (.ok budgetRun) =
      { answer := BUDGET_ANSWER
        knowledgeReferences := []
        usedWebSearch := false
        webSearchNote := none } := by
  have h := c4_budget_short_circuit "rain" (.ok budgetRun) (.ok budgetRun)
    (buildAgentResponse budgetRun) (by decide) (by decide)
  exact h.trans (by decide)

/-! Lemmas about the per-turn session mutation. -/

theorem applyTurn_turns (s : Session) (u r lg : String) (t : Nat) :
    (applyTurn s u r lg t).turns = s.turns + 1 := rfl

theorem applyTurn_len (s : Session) (u r lg : String) (t : Nat) :
    (applyTurn s u r lg t).messages.length = min s.messages.length (MAX_TURNS * 2) + 2 := by
  simp [applyTurn]
  omega

theorem runTurns_inv :
    ∀ (l : List TurnInput) (s : Session),
      s.messages.length = min (2 * s.turns) (2 * MAX_TURNS + 2) →
      (runTurns s l).turns = s.turns + l.length ∧
      (runTurns s l).messages.length = min (2 * (s.turns + l.length)) (2 * MAX_TURNS + 2) := by
  intro l
  induction l with
  | nil =>
    intro s h
    exact ⟨rfl, by simpa using h⟩
  | cons i t ih =>
    intro s h
    have hstep : runTurns s (i :: t) = runTurns (applyTurn s i.user i.reply i.lang i.time) t :=
      rfl
    have hlen : (applyTurn s i.user i.reply i.lang i.time).messages.length =
        min (2 * (applyTurn s i.user i.reply i.lang i.time).turns) (2 * MAX_TURNS + 2) := by
      rw [applyTurn_len, applyTurn_turns, h]
      have hm : (2 : Nat) * MAX_TURNS + 2 = 18 := by norm_num [MAX_TURNS]
      have hm2 : MAX_TURNS * 2 = 16 := by norm_num [MAX_TURNS]
      rw [hm, hm2]
      omega
    obtain ⟨ht, hl⟩ := ih _ hlen
    rw [hstep]
    constructor
    · rw [ht, applyTurn_turns]
      simp only [List.length_cons]
      omega
    · rw [hl, applyTurn_turns]
      simp only [List.length_cons]
      have he : s.turns + 1 + t.length = s.turns + (t.length + 1) := by omega
      rw [he]

/-- C3 (amended): starting from a fresh session, after N successful turns the
turn counter equals N while the retained history is capped by the sliding
window: messages.length = min (2N) (2 * MAX_TURNS + 2). The spec invariant
turns = floor(messages.length / 2) therefore holds only while
N ≤ MAX_TURNS + 1. -/
theorem c3_amended (id : String) (t0 : Nat) (l : List TurnInput) :
    (runTurns (newSession id t0) l).turns = l.length ∧
    (runTurns (newSession id t0) l).messages.length =
      min (2 * l.length) (2 * MAX_TURNS + 2) := by
  have h := runTurns_inv l (newSession id t0) (by simp [newSession])
  simpa [newSession] using h

/-- C3 counterexample: after ten successful turns the session reports ten
turns but holds only eighteen messages, so turns is no longer
floor(messages.length / 2). -/
theorem c3_counterexample :
    tenTurnSession.turns = 10 ∧ tenTurnSession.messages.length = 18 ∧
    ¬(tenTurnSession.turns = tenTurnSession.messages.length / 2) := by
  refine ⟨by decide, by decide, by decide⟩

/-! Supporting lemmas about the session store and the conversation route. -/

theorem storeGet_storeDelete (st : Store) (id : String) :
    storeGet (storeDelete st id) id = none := by
  induction st with
  | nil => rfl
  | cons p t ih =>
    by_cases h : (p.1 == id) = true
    · simpa [storeDelete, List.filter_cons, h] using ih
    · have h' : (p.1 == id) = false := by simpa using h
      simp [storeDelete, List.filter_cons, h', storeGet, List.find?_cons, ih]

theorem getSession_deleted (st : Store) (id fresh2 : String) (t2 : Nat) :
    (getSession (some id) (storeDelete st id) fresh2 t2).1 = newSession fresh2 t2 := by
  simp only [getSession, storeGet_storeDelete]

theorem empty_string_data : (("" : String) : String).data.isEmpty = true := rfl

/-- C5: a request reaching an idle-expired session is answered with
ended = true and endReason idle_timeout, the session id is removed from the
store, and a later lookup of the same id finds nothing, so getSession then
creates a fresh session. -/
theorem c5_idle_timeout (st : Store) (id txt fresh : String) (sess : Session) (t : Nat)
    (agentCall : String → Except String AgentResponse)
    (hid : id.data.isEmpty = false)
    (htxt : (jsTrim txt).data.isEmpty = false)
    (hfound : storeGet st id = some sess)
    (hsid : sess.id = id)
    (hexp : isExpired t sess = true) :
    handlePost { text := some txt, sessionId := some id } st fresh t agentCall =
      (.ok
        { sessionId := id
          reply := IDLE_REPLY
          ended := true
          endReason := some "idle_timeout"
          turn := sess.turns
          lastSeenAtMeta := sess.lastSeenAt
          expiresAtMeta := expiresAt sess
          detectedWakeWord := false },
       storeDelete st id) ∧
    storeGet (storeDelete st id) id = none ∧
    ∀ (fresh2 : String) (t2 : Nat),
      (getSession (some id) (storeDelete st id) fresh2 t2).1 = newSession fresh2 t2 := by
  refine ⟨?_, storeGet_storeDelete st id, fun fresh2 t2 => getSession_deleted st id fresh2 t2⟩
  have hgs : getSession (some id) st fresh t = (sess, st) := by
    simp only [getSession, hfound]
  simp only [handlePost, Option.getD_some, Option.map_none', Option.getD_none,
    Option.some_bind, Option.none_bind, empty_string_data, Bool.and_true, Bool.false_and,
    List.isEmpty_nil, htxt, hid, Bool.false_eq_true, if_false, hgs, hexp, if_true, hsid]

set_option maxRecDepth 65536 in
/-- C5 witness: an expired stored session at a concrete request. -/
theorem c5_witness :
    handlePost { text := some "hello again", sessionId := some "sid" } [("sid", c6Session)]
        "f" 40000 (fun _ => .error "unused") =
      (.ok
        { sessionId := "sid"
          reply := IDLE_REPLY
          ended := true
          endReason := some "idle_timeout"
          turn := c6Session.turns
          lastSeenAtMeta := c6Session.lastSeenAt
          expiresAtMeta := expiresAt c6Session
          detectedWakeWord := false },
       storeDelete [("sid", c6Session)] "sid") ∧
    storeGet (storeDelete [("sid", c6Session)] "sid") "sid" = none ∧
    ∀ (fresh2 : String) (t2 : Nat),
      (getSession (some "sid") (storeDelete [("sid", c6Session)] "sid") fresh2 t2).1 =
        newSession fresh2 t2 :=
  c5_idle_timeout [("sid", c6Session)] "sid" "hello again" "f" c6Session 40000
    (fun _ => .error "unused") (by decide) (by decide) (by decide) (by decide) (by decide)

set_option maxRecDepth 65536 in
/-- C6 counterexample: a turn that fails with an unexpected agent error (the
500 path of the route) still leaves the session with a refreshed lastSeenAt
stamp, mutated from 100 to 200, although the claim says no session field is
changed by a failed turn. -/
theorem c6_counterexample :
    handlePost { text := some "what time", sessionId := some "sid" } [("sid", c6Session)]
        "f" 200 (fun _ => .error "boom") =
      (.unexpectedError "boom", [("sid", { c6Session with lastSeenAt := 200 })]) ∧
    ({ c6Session with lastSeenAt := 200 }).lastSeenAt ≠ c6Session.lastSeenAt := by
  refine ⟨by decide, by decide⟩

/-- C6 (amended): a turn failing with a thrown agent error never touches the
session messages, turn counter, or language, but the activity stamp
lastSeenAt has already been refreshed to the access time before the failure,
so a failed turn does mutate that one field; guardrail and transport errors
handled inside the agent do not fail the turn at all — they yield degraded
answers that advance the session like successful turns. -/
theorem c6_amended (st : Store) (id txt fresh msg : String) (sess : Session) (t : Nat)
    (hid : id.data.isEmpty = false)
    (htxt : (jsTrim txt).data.isEmpty = false)
    (hfound : storeGet st id = some sess)
    (hsid : sess.id = id)
    (hexp : isExpired t sess = false) :
    handlePost { text := some txt, sessionId := some id } st fresh t (fun _ => .error msg) =
      (.unexpectedError msg, storeSet st id { sess with lastSeenAt := t }) := by
  have hgs : getSession (some id) st fresh t = (sess, st) := by
    simp only [getSession, hfound]
  simp only [handlePost, Option.getD_some, Option.map_none', Option.getD_none,
    Option.some_bind, Option.none_bind, empty_string_data, Bool.and_true, Bool.false_and,
    List.isEmpty_nil, htxt, hid, Bool.false_eq_true, if_false, hgs, hexp, if_true, hsid]

set_option maxRecDepth 65536 in
/-- C6 witness: the amended statement at concrete inputs. -/
theorem c6_witness :
    handlePost { text := some "what is here", sessionId := some "sid" } [("sid", c6Session)]
        "f" 250 (fun _ => .error "down") =
      (.unexpectedError "down", storeSet [("sid", c6Session)] "sid"
        { c6Session with lastSeenAt := 250 }) :=
  c6_amended [("sid", c6Session)] "sid" "what is here" "f" "down" c6Session 250
    (by decide) (by decide) (by decide) (by decide) (by decide)

set_option maxRecDepth 65536 in
/-- C1 counterexample: a first request on a brand-new session without any
wake phrase is not rejected: the agent runs, the reply is returned with
ended = false, and the session advances to turn 1 with two messages
appended, while the claim requires a rejection and no advancement. -/
theorem c1_counterexample :
    handlePost { text := some "tell me about the fountain" } [] "s1" 0
        (fun _ => .ok { answer := "The fountain is nice.", knowledgeReferences := [],
                        usedWebSearch := false }) =
      (.ok
        { sessionId := "s1"
          reply := "The fountain is nice."
          ended := false
          endReason := none
          turn := 1
          lastSeenAtMeta := 0
          expiresAtMeta := 30000
          detectedWakeWord := false
          knowledgeReferences := some []
          usedWebSearch := some false
          webSearchNote := none },
       [("s1",
         { id := "s1"
           messages := [{ role := "user", content := "tell me about the fountain" },
                        { role := "assistant", content := "The fountain is nice." }]
           lastSeenAt := 0
           turns := 1
           lang := some "en-SG" })]) := by
  decide

/-- C1 (amended): first-turn wake handling is non-strict — when no wake
phrase is detected on a brand-new session the request still proceeds: the
agent is invoked on the trimmed text, the response reports
detectedWakeWord = false with ended = false, and the session advances to
turn 1 with the user and assistant messages appended. -/
theorem c1_amended (txt fresh : String) (t : Nat) (resp : AgentResponse)
    (htxt : (jsTrim txt).data.isEmpty = false)
    (hwake : (detectAndStripWakeWord (jsTrim txt) DEFAULT_WAKE_WORD).matched = false) :
    handlePost { text := some txt } [] fresh t (fun _ => .ok resp) =
      (.ok
        { sessionId := fresh
          reply := resp.answer
          ended := false
          endReason := none
          turn := 1
          lastSeenAtMeta := t
          expiresAtMeta := t + IDLE_MS
          detectedWakeWord := false
          knowledgeReferences := some resp.knowledgeReferences
          usedWebSearch := some resp.usedWebSearch
          webSearchNote := resp.webSearchNote },
       [(fresh,
         { id := fresh
           messages := [{ role := "user", content := jsTrim txt },
                        { role := "assistant", content := resp.answer }]
           lastSeenAt := t
           turns := 1
           lang := some "en-SG" })]) := by
  have hstr : (detectAndStripWakeWord (jsTrim txt) DEFAULT_WAKE_WORD).stripped = jsTrim txt :=
    (detect_no_match_stripped hwake).trans (jsTrim_idem txt)
  simp [handlePost, getSession, newSession, isExpired, storeSet, wakeStep, applyTurn,
    expiresAt, jsOr, htxt, hwake, hstr, IDLE_MS, empty_string_data]

set_option maxRecDepth 65536 in
/-- C1 witness: the amended statement at concrete inputs. -/
theorem c1_witness :
    handlePost { text := some "show me the shops" } [] "w1" 5
        (fun _ => .ok { answer := "Shops are on level two.", knowledgeReferences := ["shops"],
                        usedWebSearch := false }) =
      (.ok
        { sessionId := "w1"
          reply := "Shops are on level two."
          ended := false
          endReason := none
          turn := 1
          lastSeenAtMeta := 5
          expiresAtMeta := 5 + IDLE_MS
          detectedWakeWord := false
          knowledgeReferences := some ["shops"]
          usedWebSearch := some false
          webSearchNote := none },
       [("w1",
         { id := "w1"
           messages := [{ role := "user", content := jsTrim "show me the shops" },
                        { role := "assistant", content := "Shops are on level two." }]
           lastSeenAt := 5
           turns := 1
           lang := some "en-SG" })]) :=
  c1_amended "show me the shops" "w1" 5
    { answer := "Shops are on level two.", knowledgeReferences := ["shops"],
      usedWebSearch := false } (by decide) (by decide)

end TourGuide
